import Mathlib

/-!
Shallow embedding of `extract-core/src/tika/wrappers.rs`: the JNI bridge of
the extractous core.  Foreign (JVM) behaviour is represented by scripted
response structures; every bridge function is embedded as a function in a
trace-recording error monad `JniM`, so that the sequence of foreign calls,
the propagation of errors, and the effect on the caller's buffer are all
observable in theorems.
-/

/-- Errors of the underlying `jni` crate, as observed by the wrappers:
class/method lookup failures, a thrown Java exception, thread-attach
failure, or any other jni-level failure. -/
inductive JErr where
  | classNotFound (name : String)
  | methodNotFound (name : String)
  | javaException
  | attachFailed
  | other (msg : String)
deriving DecidableEq, Repr

/-- The crate error enum, with the variants used in `wrappers.rs`
(`Error::IoError`, `Error::ParseError`, `Error::Unknown`, `Error::JniError`,
`Error::JniEnvCall`).  The enum itself lives in `errors.rs` which is not
under `src/`; the variant names are taken from their uses in `wrappers.rs`,
and, modelled from the spec, jni-level failures are carried by the
bridge-level variants `JniError` / `JniEnvCall`, distinct from the
content-level `IoError` / `ParseError` / `Unknown`. -/
inductive Error where
  | IoError (msg : String)
  | ParseError (msg : String)
  | Unknown (msg : String)
  | JniError (e : JErr)
  | JniEnvCall (msg : String)
deriving DecidableEq, Repr

/-- Content-level errors are the ones an error envelope reports
(status 1 / 2 / other); bridge-plumbing errors are everything else. -/
def Error.isContentError : Error → Bool
  | .IoError _ => true
  | .ParseError _ => true
  | .Unknown _ => true
  | _ => false

/-- A foreign object reference: a Java string, the reader object held by a
`ReaderResult`, or an opaque handle (fresh config objects, byte arrays). -/
inductive JObj where
  | jstring (s : String)
  | reader (id : Nat)
  | handle (id : Nat)
deriving DecidableEq, Repr

/-- A `JValue` argument as it appears in a `call_method` invocation:
boolean, int, object, or the freshly allocated local byte array. -/
inductive JVal where
  | z (b : Bool)
  | i (n : Int)
  | obj (o : JObj)
  | arr
deriving DecidableEq, Repr

/-- One observable foreign-environment operation. -/
inductive JCall where
  | attachThread
  | newByteArray (len : Int)
  | callMethod (name : String) (sig : String) (args : List JVal)
  | exceptionCheck
  | exceptionDescribe
  | exceptionClear
  | getByteArrayRegion (start : Int) (len : Nat)
  | findClass (name : String)
  | newObject (cls : String)
deriving DecidableEq, Repr

/-- A trace of foreign-environment operations, in order of execution. -/
abbrev Trace := List JCall

/-- Result of running an embedded bridge function: a value or a crate
`Error`, together with the trace of foreign calls made (kept on both
paths, so error-path claims about invoked methods are statable). -/
inductive RunResult (α : Type) where
  | ok (val : α) (trace : Trace)
  | err (e : Error) (trace : Trace)
deriving DecidableEq, Repr

/-- The embedding monad: trace-passing with crate-`Error` failure. -/
def JniM (α : Type) : Type := Trace → RunResult α

instance : Monad JniM where
  pure a := fun tr => .ok a tr
  bind m f := fun tr =>
    match m tr with
    | .ok a tr2 => f a tr2
    | .err e tr2 => .err e tr2

/-- Record one foreign-environment operation. -/
def emit (c : JCall) : JniM Unit := fun tr => .ok () (tr ++ [c])

/-- Fail with a crate error (a Rust `return Err(e)` / `?` propagation). -/
def throwE {α : Type} (e : Error) : JniM α := fun tr => .err e tr

/-- The `?` operator applied to a jni-crate result: modelled from the spec,
the `From` conversion (in `errors.rs`, not under `src/`) wraps jni-level
failures in the bridge-level `Error.JniError` variant. -/
def liftJni {α : Type} (r : Except JErr α) : JniM α := fun tr =>
  match r with
  | .ok a => .ok a tr
  | .error e => .err (.JniError e) tr

/-- The `?` operator applied to a crate-level `ExtractResult`. -/
def liftExtract {α : Type} (r : Except Error α) : JniM α := fun tr =>
  match r with
  | .ok a => .ok a tr
  | .error e => .err e tr

/-- Run an embedded bridge function on an initial trace. -/
def JniM.run {α : Type} (m : JniM α) (tr : Trace) : RunResult α := m tr

theorem JniM.bind_def {α β : Type} (m : JniM α) (f : α → JniM β) (tr : Trace) :
    (m >>= f) tr =
      match m tr with
      | .ok a tr2 => f a tr2
      | .err e tr2 => .err e tr2 := rfl

theorem JniM.pure_def {α : Type} (a : α) (tr : Trace) :
    (pure a : JniM α) tr = .ok a tr := rfl

theorem emit_def (c : JCall) (tr : Trace) : emit c tr = .ok () (tr ++ [c]) := rfl

theorem throwE_def {α : Type} (e : Error) (tr : Trace) :
    (throwE e : JniM α) tr = .err e tr := rfl

theorem liftJni_ok {α : Type} (a : α) (tr : Trace) :
    liftJni (.ok a) tr = .ok a tr := rfl

theorem liftJni_err {α : Type} (e : JErr) (tr : Trace) :
    (liftJni (.error e) : JniM α) tr = .err (.JniError e) tr := rfl

theorem liftExtract_ok {α : Type} (a : α) (tr : Trace) :
    liftExtract (.ok a) tr = .ok a tr := rfl

theorem liftExtract_err {α : Type} (e : Error) (tr : Trace) :
    (liftExtract (.error e) : JniM α) tr = .err e tr := rfl

/-- Modelled from the spec: `jni_jobject_to_string` (in `jni_utils.rs`, not
under `src/`) converts a foreign string object into a host-native string,
preserving its text; on a non-string object the conversion is a
bridge-level failure. -/
def jni_jobject_to_string : JObj → Except Error String
  | .jstring s => .ok s
  | _ => .error (.JniEnvCall "Failed to convert jobject to string")

/-- Modelled from the spec: `jni_new_string_as_jvalue` (in `jni_utils.rs`,
not under `src/`) allocates a foreign string holding exactly the host
string's contents and hands it back as an object `JValue`. -/
def jni_new_string_as_jvalue (s : String) : JVal := .obj (.jstring s)

/-- Modelled from the spec (§4.4 Exception Translator): `jni_check_exception`
(in `jni_utils.rs`, not under `src/`) queries the pending-exception state;
if an exception is pending it prints a description for diagnostics and
clears the pending state so the environment remains usable, returning
whether one was pending; propagation is left to the caller. -/
def jni_check_exception (pending : Bool) : JniM Bool := do
  emit .exceptionCheck
  if pending then
    emit .exceptionDescribe
    emit .exceptionClear
    pure true
  else
    pure false

/-- Scripted behaviour of a foreign result-envelope object
(`ai.yobix.StringResult` / `ai.yobix.ReaderResult`): each accessor method's
reply, or the jni-level failure its invocation would produce. -/
structure JResultObj where
  isError : Except JErr Bool
  getStatus : Except JErr Int
  getErrorMessage : Except JErr JObj
  getContent : Except JErr JObj
  getReader : Except JErr JObj

/-- `JStringResult`: the unwrapped host-native content string. -/
structure JStringResult where
  content : String
deriving DecidableEq, Repr

/-- Embedding of `JStringResult::new` (`wrappers.rs` lines 85-108): query
`isError`; on the error path read the status byte and the message and fail
with the status-selected error kind; on the success path read `getContent`
and convert it to a host string. -/
def JStringResult.new (e : JResultObj) : JniM JStringResult := do
  emit (.callMethod "isError" "()Z" [])
  let is_error ← liftJni e.isError
  if is_error then
    emit (.callMethod "getStatus" "()B" [])
    let status ← liftJni e.getStatus
    emit (.callMethod "getErrorMessage" "()Ljava/lang/String;" [])
    let msg_obj ← liftJni e.getErrorMessage
    let msg ← liftExtract (jni_jobject_to_string msg_obj)
    if status = 1 then throwE (.IoError msg)
    else if status = 2 then throwE (.ParseError msg)
    else throwE (.Unknown msg)
  else
    emit (.callMethod "getContent" "()Ljava/lang/String;" [])
    let content_obj ← liftJni e.getContent
    let content ← liftExtract (jni_jobject_to_string content_obj)
    pure { content := content }

/-- `JReaderResult`: holds the foreign reader object for later streaming. -/
structure JReaderResult where
  java_reader : JObj
deriving DecidableEq, Repr

/-- Embedding of `JReaderResult::new` (`wrappers.rs` lines 119-147): same
error path as the string variant; on success read `getReader` and keep the
returned foreign object reference. -/
def JReaderResult.new (e : JResultObj) : JniM JReaderResult := do
  emit (.callMethod "isError" "()Z" [])
  let is_error ← liftJni e.isError
  if is_error then
    emit (.callMethod "getStatus" "()B" [])
    let status ← liftJni e.getStatus
    emit (.callMethod "getErrorMessage" "()Ljava/lang/String;" [])
    let msg_obj ← liftJni e.getErrorMessage
    let msg ← liftExtract (jni_jobject_to_string msg_obj)
    if status = 1 then throwE (.IoError msg)
    else if status = 2 then throwE (.ParseError msg)
    else throwE (.Unknown msg)
  else
    emit (.callMethod "getReader"
      "()Lorg/apache/commons/io/input/ReaderInputStream;" [])
    let reader_obj ← liftJni e.getReader
    pure { java_reader := reader_obj }

/-- The names of the methods invoked in a trace, in order. -/
def calledMethods (tr : Trace) : List String :=
  tr.filterMap fun c =>
    match c with
    | .callMethod name _ _ => some name
    | _ => none

/-- The Rust `as jsize` cast (`usize` → `i32`): truncate to 32 bits and
reinterpret in two's complement. -/
def asJsize (n : Nat) : Int :=
  if n % 2 ^ 32 < 2 ^ 31 then ((n % 2 ^ 32 : Nat) : Int)
  else ((n % 2 ^ 32 : Nat) : Int) - 2 ^ 32

/-- Bit-level reinterpretation of a signed Java byte (`i8` value in
[-128, 127]) as an unsigned host byte (`u8` value in [0, 255]):
the `bytemuck::cast_slice_mut` view used by the adapter. -/
def i8ToU8 (v : Int) : Nat := (v % 256).toNat

/-- The Rust `as usize` cast applied to an `i32`: sign-extend and
reinterpret modulo 2^64 (64-bit host). -/
def usizeOfI32 (n : Int) : Nat := (n % 2 ^ 64).toNat

/-- Whether a jni-level call outcome is a thrown Java exception: exactly
then is an exception pending in the environment after the call. -/
def jniThrew {α : Type} (r : Except JErr α) : Bool :=
  match r with
  | .error .javaException => true
  | _ => false

/-- Scripted behaviour of the foreign `ReaderInputStream` object for one
`read(buffer, 0, length)` invocation: the returned count (or the jni-level
failure of the call, `.error .javaException` standing for a thrown Java
exception), and the bytes (signed Java bytes) the foreign reader wrote
into the start of the array. -/
structure JavaReader where
  readResult : Except JErr Int
  written : List Int

/-- Scripted environment for one adapter read: whether thread attachment
succeeds, whether the byte-array allocation succeeds, and the foreign
reader's behaviour. -/
structure ReadEnv where
  attachOk : Bool
  newArrayOk : Bool
  reader : JavaReader

/-- Contents of the freshly allocated foreign byte array after the foreign
`read` call: JNI `NewByteArray` zero-initializes, and the foreign reader
overwrote a prefix with `written`. -/
def foreignArrayAfter (written : List Int) (arrayLen : Nat) : List Int :=
  written.take arrayLen ++ List.replicate (arrayLen - written.length) 0

/-- Embedding of `<JReaderInputStream as Read>::read` (`wrappers.rs` lines
27-65), for a caller buffer of the given contents (host bytes).  Steps in
source order: attach the current thread; `new_byte_array(buf.len() as
jsize)`; `call_method("read", "([BII)I", [array, 0, length])`;
`jni_check_exception`; extract the returned int; `get_byte_array_region`
into the caller's buffer viewed as `&mut [i8]`; finally map the sentinel
-1 to `Ok(0)` and any other count through `as usize`.  Returns the
buffer's new contents together with the reported byte count. -/
def JReaderInputStream.read (env : ReadEnv) (buf : List Nat) :
    JniM (List Nat × Nat) := do
  emit .attachThread
  if !env.attachOk then throwE (.JniError .attachFailed)
  let length := asJsize buf.length
  emit (.newByteArray length)
  if !env.newArrayOk then throwE (.JniEnvCall "Failed to create byte array")
  emit (.callMethod "read" "([BII)I" [.arr, .i 0, .i length])
  let _ ← jni_check_exception (jniThrew env.reader.readResult)
  let num_read_bytes ← liftJni env.reader.readResult
  emit (.getByteArrayRegion 0 buf.length)
  if !(buf.length ≤ length.toNat) then
    throwE (.JniEnvCall "Failed to get byte array region")
  let newBuf :=
    ((foreignArrayAfter env.reader.written length.toNat).take buf.length).map i8ToU8
  if num_read_bytes = -1 then
    pure (newBuf, 0)
  else
    pure (newBuf, usizeOfI32 num_read_bytes)

/-- Result at the `std::io` boundary of the `Read` implementation. -/
inductive HostRead (α : Type) where
  | ok (val : α) (trace : Trace)
  | ioErr (e : Error) (trace : Trace)
deriving DecidableEq, Repr

/-- Modelled from the spec: the `Read` implementation returns
`std::io::Result`, so every crate `Error` escaping `read` reaches the
caller converted into a host I/O error carrying it (the `From` impl lives
in `errors.rs`, not under `src/`). -/
def JReaderInputStream.readHost (env : ReadEnv) (buf : List Nat) :
    HostRead (List Nat × Nat) :=
  match JReaderInputStream.read env buf [] with
  | .ok v tr => .ok v tr
  | .err e tr => .ioErr e tr

/-- A sequence of adapter reads on the same buffer, one scripted
environment per call (the adapter itself keeps no state between reads). -/
def readSeq (envs : List ReadEnv) (buf : List Nat) :
    List (RunResult (List Nat × Nat)) :=
  envs.map fun env => JReaderInputStream.read env buf []

/-- Scripted environment for the adapter's destructor: whether thread
attachment succeeds and the outcome of the foreign `close()` call. -/
structure DropEnv where
  attachOk : Bool
  closeResult : Except JErr Unit

/-- Embedding of `<JReaderInputStream as Drop>::drop` (`wrappers.rs` lines
68-76): if attaching succeeds, call the foreign `close()` method, binding
its result without `?` (discarded), then `jni_check_exception(..).ok()`
(result ignored); if attaching fails, do nothing.  No path fails. -/
def JReaderInputStream.drop (env : DropEnv) : JniM Unit := do
  emit .attachThread
  if env.attachOk then
    emit (.callMethod "close" "()V" [])
    let _call_result := env.closeResult
    let _ ← jni_check_exception (jniThrew env.closeResult)
    pure ()
  else
    pure ()

/-- Modelled from the spec: the host OCR-strategy enumeration (defined in
the config module, not under `src/`); its variant names are required to be
spelled identically to the Java `PDFParserConfig$OCR_STRATEGY` constants. -/
inductive PdfOcrStrategy where
  | NO_OCR
  | OCR_ONLY
  | OCR_AND_TEXT_EXTRACTION
  | AUTO
deriving DecidableEq, Repr

/-- Modelled from the spec: the `to_string` of the OCR-strategy enum
(config module, not under `src/`) renders the variant's canonical name. -/
def PdfOcrStrategy.toString : PdfOcrStrategy → String
  | .NO_OCR => "NO_OCR"
  | .OCR_ONLY => "OCR_ONLY"
  | .OCR_AND_TEXT_EXTRACTION => "OCR_AND_TEXT_EXTRACTION"
  | .AUTO => "AUTO"

/-- The host PDF configuration struct, with the fields `wrappers.rs` reads. -/
structure PdfParserConfig where
  extract_inline_images : Bool
  extract_unique_inline_images_only : Bool
  extract_marked_content : Bool
  extract_annotation_text : Bool
  ocr_strategy : PdfOcrStrategy
deriving DecidableEq, Repr

/-- The host Office configuration struct, with the fields `wrappers.rs`
reads. -/
structure OfficeParserConfig where
  extract_macros : Bool
  include_deleted_content : Bool
  include_move_from_content : Bool
  include_shape_based_content : Bool
  include_headers_and_footers : Bool
  include_missing_rows : Bool
  include_slide_notes : Bool
  include_slide_master_content : Bool
  concatenate_phonetic_runs : Bool
  extract_all_alternatives_from_msg : Bool
deriving DecidableEq, Repr

/-- The host OCR configuration struct, with the fields `wrappers.rs`
reads (`i32` fields as `Int`). -/
structure TesseractOcrConfig where
  density : Int
  depth : Int
  timeout_seconds : Int
  enable_image_preprocessing : Bool
  apply_rotation : Bool
  language : String
deriving DecidableEq, Repr

/-- Scripted foreign environment for a config projector: the outcome of
class lookup, of the zero-argument constructor, and of each setter
invocation (by method name and argument list). -/
structure JClassEnv where
  findClassResult : String → Except JErr Unit
  newObjectResult : String → Except JErr JObj
  setter : String → List JVal → Except JErr Unit

/-- One setter invocation as `wrappers.rs` issues it: method name, JNI
signature, argument list. -/
structure SetterCall where
  name : String
  sig : String
  args : List JVal
deriving DecidableEq, Repr

/-- Run a list of `env.call_method(&obj, name, sig, args)?` setter
invocations in order, short-circuiting on the first jni-level failure
exactly as the chain of `?` operators does in the source. -/
def callSetters (env : JClassEnv) : List SetterCall → JniM Unit
  | [] => pure ()
  | c :: rest => do
    emit (.callMethod c.name c.sig c.args)
    liftJni (env.setter c.name c.args)
    callSetters env rest

/-- The setter invocations of `JPDFParserConfig::new`, in source order
(`wrappers.rs` lines 167-199); the last passes the OCR strategy's string
rendering as a freshly created foreign string. -/
def pdfSetterCalls (config : PdfParserConfig) : List SetterCall :=
  [⟨"setExtractInlineImages", "(Z)V", [.z config.extract_inline_images]⟩,
   ⟨"setExtractUniqueInlineImagesOnly", "(Z)V",
     [.z config.extract_unique_inline_images_only]⟩,
   ⟨"setExtractMarkedContent", "(Z)V", [.z config.extract_marked_content]⟩,
   ⟨"setExtractAnnotationText", "(Z)V", [.z config.extract_annotation_text]⟩,
   ⟨"setOcrStrategy", "(Ljava/lang/String;)V",
     [jni_new_string_as_jvalue config.ocr_strategy.toString]⟩]

/-- The projected PDF config wrapper: holds the foreign object. -/
structure JPDFParserConfig where
  internal : JObj
deriving DecidableEq, Repr

/-- Embedding of `JPDFParserConfig::new` (`wrappers.rs` lines 159-202):
find the class, construct it with `()V`, then issue the five setter calls
in order, each propagating failure with `?`; on success return the
wrapper holding the object. -/
def JPDFParserConfig.new (env : JClassEnv) (config : PdfParserConfig) :
    JniM JPDFParserConfig := do
  emit (.findClass "org/apache/tika/parser/pdf/PDFParserConfig")
  liftJni (env.findClassResult "org/apache/tika/parser/pdf/PDFParserConfig")
  emit (.newObject "org/apache/tika/parser/pdf/PDFParserConfig")
  let obj ← liftJni (env.newObjectResult "org/apache/tika/parser/pdf/PDFParserConfig")
  callSetters env (pdfSetterCalls config)
  pure { internal := obj }

/-- The setter invocations of `JOfficeParserConfig::new`, in source order
(`wrappers.rs` lines 224-283). -/
def officeSetterCalls (config : OfficeParserConfig) : List SetterCall :=
  [⟨"setExtractMacros", "(Z)V", [.z config.extract_macros]⟩,
   ⟨"setIncludeDeletedContent", "(Z)V", [.z config.include_deleted_content]⟩,
   ⟨"setIncludeMoveFromContent", "(Z)V", [.z config.include_move_from_content]⟩,
   ⟨"setIncludeShapeBasedContent", "(Z)V",
     [.z config.include_shape_based_content]⟩,
   ⟨"setIncludeHeadersAndFooters", "(Z)V",
     [.z config.include_headers_and_footers]⟩,
   ⟨"setIncludeMissingRows", "(Z)V", [.z config.include_missing_rows]⟩,
   ⟨"setIncludeSlideNotes", "(Z)V", [.z config.include_slide_notes]⟩,
   ⟨"setIncludeSlideMasterContent", "(Z)V",
     [.z config.include_slide_master_content]⟩,
   ⟨"setConcatenatePhoneticRuns", "(Z)V",
     [.z config.concatenate_phonetic_runs]⟩,
   ⟨"setExtractAllAlternativesFromMSG", "(Z)V",
     [.z config.extract_all_alternatives_from_msg]⟩]

/-- The projected Office config wrapper: holds the foreign object. -/
structure JOfficeParserConfig where
  internal : JObj
deriving DecidableEq, Repr

/-- Embedding of `JOfficeParserConfig::new` (`wrappers.rs` lines 213-286):
find the class, construct it with `()V`, then issue the ten setter calls
in order, each propagating failure with `?`. -/
def JOfficeParserConfig.new (env : JClassEnv) (config : OfficeParserConfig) :
    JniM JOfficeParserConfig := do
  emit (.findClass "org/apache/tika/parser/microsoft/OfficeParserConfig")
  liftJni (env.findClassResult "org/apache/tika/parser/microsoft/OfficeParserConfig")
  emit (.newObject "org/apache/tika/parser/microsoft/OfficeParserConfig")
  let obj ← liftJni
    (env.newObjectResult "org/apache/tika/parser/microsoft/OfficeParserConfig")
  callSetters env (officeSetterCalls config)
  pure { internal := obj }

/-- The setter invocations of `JTesseractOcrConfig::new`, in source order
(`wrappers.rs` lines 307-334); the last passes the language as a freshly
created foreign string. -/
def ocrSetterCalls (config : TesseractOcrConfig) : List SetterCall :=
  [⟨"setDensity", "(I)V", [.i config.density]⟩,
   ⟨"setDepth", "(I)V", [.i config.depth]⟩,
   ⟨"setTimeoutSeconds", "(I)V", [.i config.timeout_seconds]⟩,
   ⟨"setEnableImagePreprocessing", "(Z)V",
     [.z config.enable_image_preprocessing]⟩,
   ⟨"setApplyRotation", "(Z)V", [.z config.apply_rotation]⟩,
   ⟨"setLanguage", "(Ljava/lang/String;)V",
     [jni_new_string_as_jvalue config.language]⟩]

/-- The projected OCR config wrapper: holds the foreign object. -/
structure JTesseractOcrConfig where
  internal : JObj
deriving DecidableEq, Repr

/-- Embedding of `JTesseractOcrConfig::new` (`wrappers.rs` lines 296-337):
find the class, construct it with `()V`, then issue the six setter calls
in order, each propagating failure with `?`. -/
def JTesseractOcrConfig.new (env : JClassEnv) (config : TesseractOcrConfig) :
    JniM JTesseractOcrConfig := do
  emit (.findClass "org/apache/tika/parser/ocr/TesseractOCRConfig")
  liftJni (env.findClassResult "org/apache/tika/parser/ocr/TesseractOCRConfig")
  emit (.newObject "org/apache/tika/parser/ocr/TesseractOCRConfig")
  let obj ← liftJni (env.newObjectResult "org/apache/tika/parser/ocr/TesseractOCRConfig")
  callSetters env (ocrSetterCalls config)
  pure { internal := obj }

/-- Whether a jni-level call outcome is a success. -/
def jniOk {α : Type} (r : Except JErr α) : Bool :=
  match r with
  | .ok _ => true
  | .error _ => false

/-- The trace of a result unwrapper's error path: the three accessor
invocations, in order. -/
def envelopeErrorTrace : Trace :=
  [.callMethod "isError" "()Z" [],
   .callMethod "getStatus" "()B" [],
   .callMethod "getErrorMessage" "()Ljava/lang/String;" []]

/-- Claim C1: for every result envelope (string-bearing or reader-bearing)
whose `isError` query returns true, the unwrapper returns an `IoError`
carrying the envelope's message if the status code equals 1, a
`ParseError` carrying the message if it equals 2, and an `Unknown` error
carrying the message for every other status code; the message text is
preserved exactly, and neither `getContent` nor `getReader` is invoked on
this path. -/
theorem error_envelope_unwrapping
    (e : JResultObj) (s : Int) (msg : String)
    (h1 : e.isError = .ok true) (h2 : e.getStatus = .ok s)
    (h3 : e.getErrorMessage = .ok (.jstring msg)) :
    ∃ E : Error,
      (JStringResult.new e).run [] = .err E envelopeErrorTrace ∧
      (JReaderResult.new e).run [] = .err E envelopeErrorTrace ∧
      (s = 1 → E = .IoError msg) ∧
      (s = 2 → E = .ParseError msg) ∧
      (s ≠ 1 → s ≠ 2 → E = .Unknown msg) ∧
      "getContent" ∉ calledMethods envelopeErrorTrace ∧
      "getReader" ∉ calledMethods envelopeErrorTrace := by
  refine ⟨if s = 1 then .IoError msg else if s = 2 then .ParseError msg
    else .Unknown msg, ?_, ?_, ?_, ?_, ?_, ?_, ?_⟩
  · by_cases hs1 : s = 1 <;> by_cases hs2 : s = 2 <;>
      simp [JniM.run, JStringResult.new, JniM.bind_def, emit_def, h1, h2, h3,
        liftJni_ok, liftExtract_ok, jni_jobject_to_string, throwE_def,
        envelopeErrorTrace, hs1, hs2]
  · by_cases hs1 : s = 1 <;> by_cases hs2 : s = 2 <;>
      simp [JniM.run, JReaderResult.new, JniM.bind_def, emit_def, h1, h2, h3,
        liftJni_ok, liftExtract_ok, jni_jobject_to_string, throwE_def,
        envelopeErrorTrace, hs1, hs2]
  · intro hs1; simp [hs1]
  · intro hs2
    have hs1 : s ≠ 1 := by omega
    simp [hs1, hs2]
  · intro hs1 hs2; simp [hs1, hs2]
  · decide
  · decide

/-- A concrete error envelope: status 99, message preserved, success
accessors present but unused. -/
def c1Envelope : JResultObj :=
  { isError := .ok true
    getStatus := .ok 99
    getErrorMessage := .ok (.jstring "boom")
    getContent := .ok (.jstring "unused")
    getReader := .ok (.reader 0) }

/-- Witness for claim C1 at a concrete envelope with status 99. -/
theorem error_envelope_unwrapping_witness :
    ∃ E : Error,
      (JStringResult.new c1Envelope).run [] = .err E envelopeErrorTrace ∧
      (JReaderResult.new c1Envelope).run [] = .err E envelopeErrorTrace ∧
      ((99 : Int) = 1 → E = .IoError "boom") ∧
      ((99 : Int) = 2 → E = .ParseError "boom") ∧
      ((99 : Int) ≠ 1 → (99 : Int) ≠ 2 → E = .Unknown "boom") ∧
      "getContent" ∉ calledMethods envelopeErrorTrace ∧
      "getReader" ∉ calledMethods envelopeErrorTrace :=
  error_envelope_unwrapping c1Envelope 99 "boom" rfl rfl rfl

theorem asJsize_of_lt (n : Nat) (h : n < 2 ^ 31) : asJsize n = (n : Int) := by
  have h1 : n % 2 ^ 32 = n := Nat.mod_eq_of_lt (by omega)
  unfold asJsize
  rw [h1, if_pos h]

theorem asJsize_toNat_of_lt (n : Nat) (h : n < 2 ^ 31) :
    (asJsize n).toNat = n := by
  rw [asJsize_of_lt n h]; exact Int.toNat_natCast n

/-- Full evaluation of a successful-plumbing adapter read: the thread is
attached, the array is allocated with the buffer's length, the foreign
`read` is invoked with offset 0 and that length, the exception check runs,
the array is copied back over the whole buffer, and the count is the
sentinel-mapped reported value. -/
theorem read_run_ok (env : ReadEnv) (buf : List Nat) (n : Int)
    (ha : env.attachOk = true) (hn : env.newArrayOk = true)
    (hr : env.reader.readResult = .ok n)
    (hlen : buf.length < 2 ^ 31) :
    (JReaderInputStream.read env buf).run [] =
      .ok (((foreignArrayAfter env.reader.written buf.length).take buf.length).map i8ToU8,
           if n = -1 then 0 else usizeOfI32 n)
        [.attachThread, .newByteArray (buf.length : Int),
         .callMethod "read" "([BII)I" [.arr, .i 0, .i (buf.length : Int)],
         .exceptionCheck, .getByteArrayRegion 0 buf.length] := by
  obtain ⟨aok, nok, reader⟩ := env
  obtain ⟨rres, written⟩ := reader
  simp only at ha hn hr
  subst ha hn hr
  by_cases hn1 : n = -1 <;>
    simp [JniM.run, JReaderInputStream.read, JniM.bind_def, emit_def,
      liftJni_ok, throwE_def, jni_check_exception, jniThrew, JniM.pure_def,
      asJsize_of_lt buf.length hlen, asJsize_toNat_of_lt buf.length hlen, hn1]

instance {ε α : Type} [DecidableEq ε] [DecidableEq α] : DecidableEq (Except ε α) := fun x y =>
  match x, y with
  | .ok a, .ok b => if h : a = b then .isTrue (by rw [h]) else .isFalse (by simp [h])
  | .error e, .error f => if h : e = f then .isTrue (by rw [h]) else .isFalse (by simp [h])
  | .ok _, .error _ => .isFalse (by simp)
  | .error _, .ok _ => .isFalse (by simp)

/-- Claim C3: on destruction of the streaming adapter the foreign reader's
`close()` is called best-effort; attach failure and close failure
(including a pending foreign exception) are swallowed: the drop embedding
always returns successfully (it is a total function with no error path),
calls `close` whenever attachment succeeds, and clears a pending
exception. -/
theorem drop_never_propagates (env : DropEnv) :
    ∃ tr : Trace, (JReaderInputStream.drop env).run [] = .ok () tr ∧
      (env.attachOk = true → JCall.callMethod "close" "()V" [] ∈ tr) ∧
      (env.attachOk = true → jniThrew env.closeResult = true →
        JCall.exceptionClear ∈ tr) := by
  obtain ⟨aok, cres⟩ := env
  cases aok with
  | false =>
    refine ⟨[.attachThread], ?_, ?_, ?_⟩ <;>
      simp [JniM.run, JReaderInputStream.drop, JniM.bind_def, emit_def,
        JniM.pure_def, jni_check_exception]
  | true =>
    by_cases ht : jniThrew cres = true
    · refine ⟨[.attachThread, .callMethod "close" "()V" [], .exceptionCheck,
        .exceptionDescribe, .exceptionClear], ?_, ?_, ?_⟩ <;>
        simp [JniM.run, JReaderInputStream.drop, JniM.bind_def, emit_def,
          JniM.pure_def, jni_check_exception, ht]
    · refine ⟨[.attachThread, .callMethod "close" "()V" [], .exceptionCheck],
        ?_, ?_, ?_⟩ <;>
        simp [JniM.run, JReaderInputStream.drop, JniM.bind_def, emit_def,
          JniM.pure_def, jni_check_exception, ht]

/-- Witness for claim C3: a drop whose foreign `close()` throws still
returns successfully. -/
theorem drop_never_propagates_witness :
    ∃ tr : Trace,
      (JReaderInputStream.drop ⟨true, .error .javaException⟩).run [] = .ok () tr ∧
      ((true : Bool) = true → JCall.callMethod "close" "()V" [] ∈ tr) ∧
      ((true : Bool) = true →
        jniThrew (Except.error JErr.javaException : Except JErr Unit) = true →
        JCall.exceptionClear ∈ tr) :=
  drop_never_propagates ⟨true, .error .javaException⟩

/-- Claim C4: every adapter read with an N-byte caller buffer attaches the
current thread, allocates a foreign byte array of exactly length N,
invokes the foreign reader's `read` with that array, offset 0 and length
N, and copies the foreign array's bytes over the caller's buffer through
the i8-to-u8 bit-level reinterpretation — in that order (N below the
`jsize` bound, plumbing succeeding). -/
theorem read_call_protocol (env : ReadEnv) (buf : List Nat) (n : Int)
    (ha : env.attachOk = true) (hn : env.newArrayOk = true)
    (hr : env.reader.readResult = .ok n)
    (hlen : buf.length < 2 ^ 31) :
    (JReaderInputStream.read env buf).run [] =
      .ok (((foreignArrayAfter env.reader.written buf.length).take buf.length).map i8ToU8,
           if n = -1 then 0 else usizeOfI32 n)
        [.attachThread, .newByteArray (buf.length : Int),
         .callMethod "read" "([BII)I" [.arr, .i 0, .i (buf.length : Int)],
         .exceptionCheck, .getByteArrayRegion 0 buf.length] :=
  read_run_ok env buf n ha hn hr hlen

/-- A concrete read environment: the foreign reader reports 2 bytes and
wrote the signed bytes 10 and -1. -/
def c4Env : ReadEnv := ⟨true, true, ⟨.ok 2, [10, -1]⟩⟩

/-- Witness for claim C4 at a 3-byte buffer: the array has length 3, the
call passes offset 0 and length 3, and the buffer afterwards holds the
reinterpreted bytes 10, 255 and the array's zero-initialized tail. -/
theorem read_call_protocol_witness :
    (JReaderInputStream.read c4Env [9, 9, 9]).run [] =
      .ok ([10, 255, 0], 2)
        [.attachThread, .newByteArray 3,
         .callMethod "read" "([BII)I" [.arr, .i 0, .i 3],
         .exceptionCheck, .getByteArrayRegion 0 3] := by
  have h := read_call_protocol c4Env [9, 9, 9] 2 rfl rfl rfl (by decide)
  simpa using h

/-- Claim C5: if a foreign exception is pending after the foreign `read`
invocation, the adapter checks and clears it and the read fails; at the
`Read` trait boundary the caller receives it as a host I/O error. -/
theorem read_pending_exception_surfaced (env : ReadEnv) (buf : List Nat)
    (ha : env.attachOk = true) (hn : env.newArrayOk = true)
    (hr : env.reader.readResult = .error .javaException) :
    ∃ tr : Trace,
      (JReaderInputStream.read env buf).run [] =
        .err (.JniError .javaException) tr ∧
      JReaderInputStream.readHost env buf =
        .ioErr (.JniError .javaException) tr ∧
      JCall.exceptionCheck ∈ tr ∧ JCall.exceptionDescribe ∈ tr ∧
      JCall.exceptionClear ∈ tr := by
  obtain ⟨aok, nok, reader⟩ := env
  obtain ⟨rres, written⟩ := reader
  simp only at ha hn hr
  subst ha hn hr
  refine ⟨[.attachThread, .newByteArray (asJsize buf.length),
    .callMethod "read" "([BII)I" [.arr, .i 0, .i (asJsize buf.length)],
    .exceptionCheck, .exceptionDescribe, .exceptionClear], ?_, ?_, ?_, ?_, ?_⟩ <;>
    simp [JniM.run, JReaderInputStream.read, JReaderInputStream.readHost,
      JniM.bind_def, emit_def, liftJni_err, throwE_def, jni_check_exception,
      jniThrew, JniM.pure_def]

/-- Witness for claim C5: a concrete read whose foreign call throws. -/
theorem read_pending_exception_surfaced_witness :
    ∃ tr : Trace,
      (JReaderInputStream.read ⟨true, true, ⟨.error .javaException, []⟩⟩
        [0, 0]).run [] = .err (.JniError .javaException) tr ∧
      JReaderInputStream.readHost ⟨true, true, ⟨.error .javaException, []⟩⟩
        [0, 0] = .ioErr (.JniError .javaException) tr ∧
      JCall.exceptionCheck ∈ tr ∧ JCall.exceptionDescribe ∈ tr ∧
      JCall.exceptionClear ∈ tr :=
  read_pending_exception_surfaced ⟨true, true, ⟨.error .javaException, []⟩⟩
    [0, 0] rfl rfl rfl

theorem asJsize_toNat_le (n : Nat) : (asJsize n).toNat ≤ n := by
  unfold asJsize
  split
  · rw [Int.toNat_natCast]
    exact Nat.mod_le n _
  · have h2 : ((n % 2 ^ 32 : Nat) : Int) - 2 ^ 32 ≤ 0 := by
      have := Nat.mod_lt n (show 0 < 2 ^ 32 by norm_num)
      omega
    rw [Int.toNat_of_nonpos h2]
    exact Nat.zero_le n

theorem foreignArrayAfter_length (w : List Int) (n : Nat) :
    (foreignArrayAfter w n).length = n := by
  simp [foreignArrayAfter]
  omega

theorem foreignArrayAfter_take_map (w : List Int) (n : Nat) :
    ((foreignArrayAfter w n).take n).map i8ToU8 =
      (w.take n).map i8ToU8 ++ List.replicate (n - w.length) 0 := by
  rw [List.take_of_length_le (le_of_eq (foreignArrayAfter_length w n))]
  simp [foreignArrayAfter, i8ToU8]

/-- Claim C9: every successful adapter read with an N-byte caller buffer
overwrites all N bytes of the buffer with the foreign array's contents,
independently of the reported count — including end-of-stream and short
reads, where the bytes beyond what the foreign reader wrote are the
array's zero-initialized contents. -/
theorem read_overwrites_whole_buffer (env : ReadEnv) (buf : List Nat)
    (v : List Nat) (k : Nat) (tr : Trace)
    (h : (JReaderInputStream.read env buf).run [] = .ok (v, k) tr) :
    v = (env.reader.written.take buf.length).map i8ToU8 ++
        List.replicate (buf.length - env.reader.written.length) 0 ∧
    v.length = buf.length := by
  obtain ⟨aok, nok, reader⟩ := env
  obtain ⟨rres, written⟩ := reader
  cases aok with
  | false =>
    simp [JniM.run, JReaderInputStream.read, JniM.bind_def, emit_def,
      throwE_def] at h
  | true =>
  cases nok with
  | false =>
    simp [JniM.run, JReaderInputStream.read, JniM.bind_def, emit_def,
      throwE_def] at h
  | true =>
  cases rres with
  | error e =>
    cases e <;>
      simp [JniM.run, JReaderInputStream.read, JniM.bind_def, emit_def,
        throwE_def, liftJni_err, jni_check_exception, jniThrew,
        JniM.pure_def] at h
  | ok n =>
    by_cases hle : buf.length ≤ (asJsize buf.length).toNat
    · have harr : (asJsize buf.length).toNat = buf.length :=
        le_antisymm (asJsize_toNat_le buf.length) hle
      by_cases hn1 : n = -1 <;>
        simp [JniM.run, JReaderInputStream.read, JniM.bind_def, emit_def,
          throwE_def, liftJni_ok, jni_check_exception, jniThrew,
          JniM.pure_def, hle, harr, hn1] at h <;>
      · obtain ⟨⟨hv, hk⟩, htr⟩ := h
        have hmain : ((foreignArrayAfter written buf.length).take buf.length).map i8ToU8 =
            (written.take buf.length).map i8ToU8 ++
              List.replicate (buf.length - written.length) 0 :=
          foreignArrayAfter_take_map written buf.length
        constructor
        · rw [← hv]
          simpa [List.map_take] using hmain
        · rw [← hv]
          simp [List.length_take, foreignArrayAfter_length]
    · simp [JniM.run, JReaderInputStream.read, JniM.bind_def, emit_def,
        throwE_def, liftJni_ok, jni_check_exception, jniThrew,
        JniM.pure_def, hle] at h

/-- A concrete read environment for the frame-effect witness: the foreign
reader reports end-of-stream-adjacent count 0 after writing two bytes. -/
def c9Env : ReadEnv := ⟨true, true, ⟨.ok 0, [5, -3]⟩⟩

/-- Witness for claim C9: a 4-byte buffer is fully overwritten (bytes 5
and 253 then the zero-initialized tail) even though the reported count
is 0. -/
theorem read_overwrites_whole_buffer_witness :
    ([5, 253, 0, 0] : List Nat) =
      (c9Env.reader.written.take 4).map i8ToU8 ++
        List.replicate (4 - c9Env.reader.written.length) 0 ∧
    ([5, 253, 0, 0] : List Nat).length = 4 := by
  have h := read_overwrites_whole_buffer c9Env [9, 9, 9, 9] [5, 253, 0, 0] 0
    [.attachThread, .newByteArray 4,
     .callMethod "read" "([BII)I" [.arr, .i 0, .i 4],
     .exceptionCheck, .getByteArrayRegion 0 4] (by decide)
  simpa using h

/-- Claim C10: the adapter treats only the exact value -1 as end-of-stream;
any other reported count n is returned as `n as usize` without a bounds
check, so a negative reported count other than -1 (within the i32 range)
yields a bytes-written value that exceeds the caller's buffer length. -/
theorem negative_count_unchecked (env : ReadEnv) (buf : List Nat) (n : Int)
    (ha : env.attachOk = true) (hn : env.newArrayOk = true)
    (hr : env.reader.readResult = .ok n)
    (hneg : n < 0) (hne : n ≠ -1) (hge : -2 ^ 31 ≤ n)
    (hlen : buf.length < 2 ^ 31) :
    ∃ v tr, (JReaderInputStream.read env buf).run [] = .ok (v, usizeOfI32 n) tr ∧
      usizeOfI32 n = (2 ^ 64 + n).toNat ∧
      buf.length < usizeOfI32 n := by
  have h := read_run_ok env buf n ha hn hr hlen
  rw [if_neg hne] at h
  refine ⟨_, _, h, ?_, ?_⟩
  · unfold usizeOfI32
    omega
  · unfold usizeOfI32
    omega

/-- A concrete read environment whose foreign reader reports -2. -/
def c10Env : ReadEnv := ⟨true, true, ⟨.ok (-2), []⟩⟩

/-- Witness for claim C10: with a 4-byte buffer and reported count -2, the
read returns the wrapped count 2^64 - 2, which exceeds 4. -/
theorem negative_count_unchecked_witness :
    ∃ v tr, (JReaderInputStream.read c10Env [0, 0, 0, 0]).run [] =
        .ok (v, usizeOfI32 (-2)) tr ∧
      usizeOfI32 (-2) = (2 ^ 64 + (-2 : Int)).toNat ∧
      (4 : Nat) < usizeOfI32 (-2) := by
  have h := negative_count_unchecked c10Env [0, 0, 0, 0] (-2) rfl rfl rfl
    (by decide) (by decide) (by decide) (by decide)
  simpa using h

/-- A concrete read environment for the C2 counterexample: the foreign
reader reports the negative count -2 (not the end-of-stream sentinel). -/
def c2Env : ReadEnv := ⟨true, true, ⟨.ok (-2), []⟩⟩

/-- Counterexample to claim C2 as stated: when the foreign reader reports
-2 (not the sentinel -1), the read neither fails nor returns the reported
count: it returns the two's-complement wrap 2^64 - 2 (and not 0 either),
which equals -2 in no reading of "the reported count" at type usize. -/
theorem eos_contract_counterexample :
    (JReaderInputStream.read c2Env [0, 0, 0, 0]).run [] =
      .ok ([0, 0, 0, 0], 18446744073709551614)
        [.attachThread, .newByteArray 4,
         .callMethod "read" "([BII)I" [.arr, .i 0, .i 4],
         .exceptionCheck, .getByteArrayRegion 0 4] ∧
    c2Env.reader.readResult = .ok (-2) ∧
    ((18446744073709551614 : Int) ≠ -2) ∧ ((18446744073709551614 : Nat) ≠ 0) := by
  refine ⟨by decide, rfl, by decide, by decide⟩

/-- Claim C2 (amended): if the foreign read reports the sentinel -1, read
returns Ok with zero bytes written; if it reports a nonnegative count n
(within the i32 range), read returns Ok(n); and once end-of-stream is
reached — the foreign reader, per its contract, keeps reporting -1 — every
subsequent read returns zero bytes without error.  (A negative count other
than -1 is instead returned wrapped, see the counterexample.) -/
theorem eos_and_count_amended (env : ReadEnv) (envs : List ReadEnv)
    (buf : List Nat) (n : Int)
    (ha : env.attachOk = true) (hn : env.newArrayOk = true)
    (hlen : buf.length < 2 ^ 31)
    (hseq : ∀ e ∈ envs, e.attachOk = true ∧ e.newArrayOk = true ∧
      e.reader.readResult = .ok (-1)) :
    (env.reader.readResult = .ok (-1) →
      ∃ v tr, (JReaderInputStream.read env buf).run [] = .ok (v, 0) tr) ∧
    (env.reader.readResult = .ok n → 0 ≤ n → n < 2 ^ 31 →
      ∃ v tr, (JReaderInputStream.read env buf).run [] = .ok (v, n.toNat) tr) ∧
    (∀ r ∈ readSeq envs buf, ∃ v tr, r = .ok (v, 0) tr) := by
  refine ⟨?_, ?_, ?_⟩
  · intro hr
    have h := read_run_ok env buf (-1) ha hn hr hlen
    rw [if_pos rfl] at h
    exact ⟨_, _, h⟩
  · intro hr hpos hlt
    have h := read_run_ok env buf n ha hn hr hlen
    rw [if_neg (by omega)] at h
    have hcast : usizeOfI32 n = n.toNat := by
      unfold usizeOfI32
      omega
    rw [hcast] at h
    exact ⟨_, _, h⟩
  · intro r hrmem
    rw [readSeq, List.mem_map] at hrmem
    obtain ⟨e, hemem, hre⟩ := hrmem
    obtain ⟨hea, hen, her⟩ := hseq e hemem
    have h := read_run_ok e buf (-1) hea hen her hlen
    rw [if_pos rfl] at h
    exact ⟨_, _, by rw [← hre]; exact h⟩

/-- A concrete end-of-stream read environment. -/
def c2EosEnv : ReadEnv := ⟨true, true, ⟨.ok (-1), []⟩⟩

/-- Witness for the amended claim C2: the end-of-stream read returns zero
bytes, a read reporting 3 returns 3, and both subsequent reads after
end-of-stream return zero bytes without error. -/
theorem eos_and_count_amended_witness :
    ((c2EosEnv.reader.readResult = .ok (-1) →
      ∃ v tr, (JReaderInputStream.read c2EosEnv [0, 0, 0, 0]).run [] =
        .ok (v, 0) tr) ∧
    (c2EosEnv.reader.readResult = .ok 3 → (0 : Int) ≤ 3 → (3 : Int) < 2 ^ 31 →
      ∃ v tr, (JReaderInputStream.read c2EosEnv [0, 0, 0, 0]).run [] =
        .ok (v, (3 : Int).toNat) tr) ∧
    (∀ r ∈ readSeq [c2EosEnv, c2EosEnv] [0, 0, 0, 0],
      ∃ v tr, r = .ok (v, 0) tr)) :=
  eos_and_count_amended c2EosEnv [c2EosEnv, c2EosEnv] [0, 0, 0, 0] 3
    rfl rfl (by decide) (by decide)

theorem callSetters_run_ok (env : JClassEnv) :
    ∀ calls : List SetterCall,
      (∀ c ∈ calls, jniOk (env.setter c.name c.args) = true) →
      ∀ tr : Trace, callSetters env calls tr =
        .ok () (tr ++ calls.map fun c => JCall.callMethod c.name c.sig c.args) := by
  intro calls
  induction calls with
  | nil =>
    intro h tr
    simp [callSetters, JniM.pure_def]
  | cons c rest ih =>
    intro h tr
    have hc := h c (List.mem_cons_self c rest)
    cases hsc : env.setter c.name c.args with
    | error e =>
      rw [hsc] at hc
      simp [jniOk] at hc
    | ok u =>
      have hrest := ih (fun d hd => h d (List.mem_cons_of_mem c hd))
      simp [callSetters, JniM.bind_def, emit_def, hsc, liftJni_ok, hrest]

theorem callSetters_run_err (env : JClassEnv) :
    ∀ calls : List SetterCall,
      (∃ c ∈ calls, jniOk (env.setter c.name c.args) = false) →
      ∀ tr : Trace, ∃ e tr2, callSetters env calls tr = .err e tr2 ∧
        e.isContentError = false := by
  intro calls
  induction calls with
  | nil =>
    intro h tr
    simp at h
  | cons c rest ih =>
    intro h tr
    cases hsc : env.setter c.name c.args with
    | error e =>
      refine ⟨.JniError e, tr ++ [.callMethod c.name c.sig c.args], ?_, rfl⟩
      simp [callSetters, JniM.bind_def, emit_def, hsc, liftJni_err]
    | ok u =>
      obtain ⟨d, hd, hfail⟩ := h
      rcases List.mem_cons.mp hd with hdc | hdr
      · subst hdc
        rw [hsc] at hfail
        simp [jniOk] at hfail
      · obtain ⟨e, tr2, heq, hnc⟩ :=
          ih ⟨d, hdr, hfail⟩ (tr ++ [.callMethod c.name c.sig c.args])
        refine ⟨e, tr2, ?_, hnc⟩
        simp [callSetters, JniM.bind_def, emit_def, hsc, liftJni_ok, heq]

theorem pdf_new_err_of_setter (env : JClassEnv) (config : PdfParserConfig)
    (h : ∃ c ∈ pdfSetterCalls config, jniOk (env.setter c.name c.args) = false) :
    ∃ e tr, (JPDFParserConfig.new env config).run [] = .err e tr ∧
      e.isContentError = false := by
  cases hfc : env.findClassResult "org/apache/tika/parser/pdf/PDFParserConfig" with
  | error e =>
    refine ⟨.JniError e,
      [.findClass "org/apache/tika/parser/pdf/PDFParserConfig"], ?_, rfl⟩
    simp [JniM.run, JPDFParserConfig.new, JniM.bind_def, emit_def, hfc,
      liftJni_err]
  | ok u =>
    cases hno : env.newObjectResult "org/apache/tika/parser/pdf/PDFParserConfig" with
    | error e =>
      refine ⟨.JniError e,
        [.findClass "org/apache/tika/parser/pdf/PDFParserConfig",
         .newObject "org/apache/tika/parser/pdf/PDFParserConfig"], ?_, rfl⟩
      simp [JniM.run, JPDFParserConfig.new, JniM.bind_def, emit_def, hfc, hno,
        liftJni_ok, liftJni_err]
    | ok obj =>
      obtain ⟨e, tr2, heq, hnc⟩ := callSetters_run_err env (pdfSetterCalls config) h
        [.findClass "org/apache/tika/parser/pdf/PDFParserConfig",
         .newObject "org/apache/tika/parser/pdf/PDFParserConfig"]
      refine ⟨e, tr2, ?_, hnc⟩
      simp [JniM.run, JPDFParserConfig.new, JniM.bind_def, emit_def, hfc, hno,
        liftJni_ok, heq]

theorem office_new_err_of_setter (env : JClassEnv) (config : OfficeParserConfig)
    (h : ∃ c ∈ officeSetterCalls config, jniOk (env.setter c.name c.args) = false) :
    ∃ e tr, (JOfficeParserConfig.new env config).run [] = .err e tr ∧
      e.isContentError = false := by
  cases hfc : env.findClassResult "org/apache/tika/parser/microsoft/OfficeParserConfig" with
  | error e =>
    refine ⟨.JniError e,
      [.findClass "org/apache/tika/parser/microsoft/OfficeParserConfig"], ?_, rfl⟩
    simp [JniM.run, JOfficeParserConfig.new, JniM.bind_def, emit_def, hfc,
      liftJni_err]
  | ok u =>
    cases hno : env.newObjectResult "org/apache/tika/parser/microsoft/OfficeParserConfig" with
    | error e =>
      refine ⟨.JniError e,
        [.findClass "org/apache/tika/parser/microsoft/OfficeParserConfig",
         .newObject "org/apache/tika/parser/microsoft/OfficeParserConfig"], ?_, rfl⟩
      simp [JniM.run, JOfficeParserConfig.new, JniM.bind_def, emit_def, hfc, hno,
        liftJni_ok, liftJni_err]
    | ok obj =>
      obtain ⟨e, tr2, heq, hnc⟩ := callSetters_run_err env (officeSetterCalls config) h
        [.findClass "org/apache/tika/parser/microsoft/OfficeParserConfig",
         .newObject "org/apache/tika/parser/microsoft/OfficeParserConfig"]
      refine ⟨e, tr2, ?_, hnc⟩
      simp [JniM.run, JOfficeParserConfig.new, JniM.bind_def, emit_def, hfc, hno,
        liftJni_ok, heq]

theorem ocr_new_err_of_setter (env : JClassEnv) (config : TesseractOcrConfig)
    (h : ∃ c ∈ ocrSetterCalls config, jniOk (env.setter c.name c.args) = false) :
    ∃ e tr, (JTesseractOcrConfig.new env config).run [] = .err e tr ∧
      e.isContentError = false := by
  cases hfc : env.findClassResult "org/apache/tika/parser/ocr/TesseractOCRConfig" with
  | error e =>
    refine ⟨.JniError e,
      [.findClass "org/apache/tika/parser/ocr/TesseractOCRConfig"], ?_, rfl⟩
    simp [JniM.run, JTesseractOcrConfig.new, JniM.bind_def, emit_def, hfc,
      liftJni_err]
  | ok u =>
    cases hno : env.newObjectResult "org/apache/tika/parser/ocr/TesseractOCRConfig" with
    | error e =>
      refine ⟨.JniError e,
        [.findClass "org/apache/tika/parser/ocr/TesseractOCRConfig",
         .newObject "org/apache/tika/parser/ocr/TesseractOCRConfig"], ?_, rfl⟩
      simp [JniM.run, JTesseractOcrConfig.new, JniM.bind_def, emit_def, hfc, hno,
        liftJni_ok, liftJni_err]
    | ok obj =>
      obtain ⟨e, tr2, heq, hnc⟩ := callSetters_run_err env (ocrSetterCalls config) h
        [.findClass "org/apache/tika/parser/ocr/TesseractOCRConfig",
         .newObject "org/apache/tika/parser/ocr/TesseractOCRConfig"]
      refine ⟨e, tr2, ?_, hnc⟩
      simp [JniM.run, JTesseractOcrConfig.new, JniM.bind_def, emit_def, hfc, hno,
        liftJni_ok, heq]

/-- Claim C6: for every config projector (PDF, Office, OCR), if any setter
invocation on the freshly constructed foreign config object fails, the
whole projection returns an error — the error constructor carries no
wrapper value, so no partially configured foreign object reaches the
caller. -/
theorem projectors_no_partial_application (env : JClassEnv)
    (pc : PdfParserConfig) (oc : OfficeParserConfig) (tc : TesseractOcrConfig)
    (hp : ∃ c ∈ pdfSetterCalls pc, jniOk (env.setter c.name c.args) = false)
    (ho : ∃ c ∈ officeSetterCalls oc, jniOk (env.setter c.name c.args) = false)
    (ht : ∃ c ∈ ocrSetterCalls tc, jniOk (env.setter c.name c.args) = false) :
    (∃ e tr, (JPDFParserConfig.new env pc).run [] = .err e tr) ∧
    (∃ e tr, (JOfficeParserConfig.new env oc).run [] = .err e tr) ∧
    (∃ e tr, (JTesseractOcrConfig.new env tc).run [] = .err e tr) := by
  obtain ⟨e1, tr1, h1, _⟩ := pdf_new_err_of_setter env pc hp
  obtain ⟨e2, tr2, h2, _⟩ := office_new_err_of_setter env oc ho
  obtain ⟨e3, tr3, h3, _⟩ := ocr_new_err_of_setter env tc ht
  exact ⟨⟨e1, tr1, h1⟩, ⟨e2, tr2, h2⟩, ⟨e3, tr3, h3⟩⟩

/-- A foreign environment in which class lookup and construction succeed
but every setter invocation throws. -/
def failingSetterEnv : JClassEnv :=
  { findClassResult := fun _ => .ok ()
    newObjectResult := fun _ => .ok (.handle 7)
    setter := fun _ _ => .error .javaException }

/-- A default-shaped PDF config value. -/
def pdfConfigA : PdfParserConfig := ⟨false, false, false, false, .AUTO⟩

/-- A default-shaped Office config value. -/
def officeConfigA : OfficeParserConfig :=
  ⟨false, true, true, true, true, true, true, true, true, false⟩

/-- A default-shaped OCR config value. -/
def ocrConfigA : TesseractOcrConfig := ⟨300, 4, 120, false, false, "eng"⟩

/-- Witness for claim C6 at an environment whose setters all throw. -/
theorem projectors_no_partial_application_witness :
    (∃ e tr, (JPDFParserConfig.new failingSetterEnv pdfConfigA).run [] =
      .err e tr) ∧
    (∃ e tr, (JOfficeParserConfig.new failingSetterEnv officeConfigA).run [] =
      .err e tr) ∧
    (∃ e tr, (JTesseractOcrConfig.new failingSetterEnv ocrConfigA).run [] =
      .err e tr) :=
  projectors_no_partial_application failingSetterEnv pdfConfigA officeConfigA
    ocrConfigA (by decide) (by decide) (by decide)

theorem pdf_new_run_ok (env : JClassEnv) (config : PdfParserConfig) (obj : JObj)
    (hfc : env.findClassResult "org/apache/tika/parser/pdf/PDFParserConfig" = .ok ())
    (hno : env.newObjectResult "org/apache/tika/parser/pdf/PDFParserConfig" = .ok obj)
    (hset : ∀ c ∈ pdfSetterCalls config, jniOk (env.setter c.name c.args) = true) :
    (JPDFParserConfig.new env config).run [] =
      .ok ⟨obj⟩
        ([.findClass "org/apache/tika/parser/pdf/PDFParserConfig",
          .newObject "org/apache/tika/parser/pdf/PDFParserConfig"] ++
         (pdfSetterCalls config).map fun c => JCall.callMethod c.name c.sig c.args) := by
  simp [JniM.run, JPDFParserConfig.new, JniM.bind_def, emit_def, hfc, hno,
    liftJni_ok, callSetters_run_ok env (pdfSetterCalls config) hset,
    JniM.pure_def]

/-- The exact string spelling of each OCR-strategy enumeration constant —
the claim's statement of what the foreign side must receive. -/
def canonicalName : PdfOcrStrategy → String
  | .NO_OCR => "NO_OCR"
  | .OCR_ONLY => "OCR_ONLY"
  | .OCR_AND_TEXT_EXTRACTION => "OCR_AND_TEXT_EXTRACTION"
  | .AUTO => "AUTO"

/-- Claim C7: projecting a PDF configuration passes the OCR-strategy field
to the foreign `setOcrStrategy` setter as a foreign string equal to the
exact canonical spelling of the host enum variant, and the host enum's
string rendering agrees with that canonical spelling on every variant. -/
theorem ocr_strategy_spelling (env : JClassEnv) (config : PdfParserConfig)
    (obj : JObj)
    (hfc : env.findClassResult "org/apache/tika/parser/pdf/PDFParserConfig" = .ok ())
    (hno : env.newObjectResult "org/apache/tika/parser/pdf/PDFParserConfig" = .ok obj)
    (hset : ∀ c ∈ pdfSetterCalls config, jniOk (env.setter c.name c.args) = true) :
    ∃ r tr, (JPDFParserConfig.new env config).run [] = .ok r tr ∧
      JCall.callMethod "setOcrStrategy" "(Ljava/lang/String;)V"
        [.obj (.jstring (canonicalName config.ocr_strategy))] ∈ tr ∧
      ∀ s : PdfOcrStrategy, PdfOcrStrategy.toString s = canonicalName s := by
  refine ⟨⟨obj⟩, _, pdf_new_run_ok env config obj hfc hno hset, ?_, ?_⟩
  · have hnm : canonicalName config.ocr_strategy =
        PdfOcrStrategy.toString config.ocr_strategy := by
      cases config.ocr_strategy <;> rfl
    rw [hnm]
    simp [pdfSetterCalls, jni_new_string_as_jvalue]
  · intro s
    cases s <;> rfl

/-- A foreign environment in which every projector step succeeds. -/
def allOkEnv : JClassEnv :=
  { findClassResult := fun _ => .ok ()
    newObjectResult := fun _ => .ok (.handle 7)
    setter := fun _ _ => .ok () }

/-- A PDF config selecting the OCR_AND_TEXT_EXTRACTION strategy. -/
def pdfConfigB : PdfParserConfig := ⟨true, false, false, true, .OCR_AND_TEXT_EXTRACTION⟩

/-- Witness for claim C7: with every step succeeding, the projection
succeeds and the trace contains the `setOcrStrategy` call carrying the
string "OCR_AND_TEXT_EXTRACTION". -/
theorem ocr_strategy_spelling_witness :
    ∃ r tr, (JPDFParserConfig.new allOkEnv pdfConfigB).run [] = .ok r tr ∧
      JCall.callMethod "setOcrStrategy" "(Ljava/lang/String;)V"
        [.obj (.jstring (canonicalName pdfConfigB.ocr_strategy))] ∈ tr ∧
      ∀ s : PdfOcrStrategy, PdfOcrStrategy.toString s = canonicalName s :=
  ocr_strategy_spelling allOkEnv pdfConfigB (.handle 7) rfl rfl (by decide)

/-- Claim C8: bridge-plumbing failures — a method-lookup failure on the
envelope's `isError` call (both unwrappers), a class-lookup failure in a
projector, and a foreign exception during a setter call — all propagate
to the caller as bridge-level errors that are distinguishable from the
envelope-reported content errors (`isContentError` is false for each). -/
theorem bridge_errors_distinct (envA envB : JClassEnv) (e : JResultObj)
    (config : PdfParserConfig) (je jc : JErr)
    (h1 : e.isError = .error je)
    (h2 : envA.findClassResult "org/apache/tika/parser/pdf/PDFParserConfig" =
      .error jc)
    (h3 : ∃ c ∈ pdfSetterCalls config, jniOk (envB.setter c.name c.args) = false) :
    ((JStringResult.new e).run [] =
        .err (.JniError je) [.callMethod "isError" "()Z" []] ∧
      (Error.JniError je).isContentError = false) ∧
    ((JReaderResult.new e).run [] =
        .err (.JniError je) [.callMethod "isError" "()Z" []]) ∧
    ((JPDFParserConfig.new envA config).run [] =
        .err (.JniError jc)
          [.findClass "org/apache/tika/parser/pdf/PDFParserConfig"] ∧
      (Error.JniError jc).isContentError = false) ∧
    (∃ e2 tr, (JPDFParserConfig.new envB config).run [] = .err e2 tr ∧
      e2.isContentError = false) := by
  refine ⟨⟨?_, rfl⟩, ?_, ⟨?_, rfl⟩, pdf_new_err_of_setter envB config h3⟩
  · simp [JniM.run, JStringResult.new, JniM.bind_def, emit_def, h1, liftJni_err]
  · simp [JniM.run, JReaderResult.new, JniM.bind_def, emit_def, h1, liftJni_err]
  · simp [JniM.run, JPDFParserConfig.new, JniM.bind_def, emit_def, h2,
      liftJni_err]

/-- An envelope whose `isError` invocation itself fails with a
method-lookup error. -/
def brokenEnvelope : JResultObj :=
  { isError := .error (.methodNotFound "isError")
    getStatus := .ok 0
    getErrorMessage := .ok (.jstring "")
    getContent := .ok (.jstring "")
    getReader := .ok (.reader 0) }

/-- A foreign environment whose class lookup fails. -/
def noClassEnv : JClassEnv :=
  { findClassResult := fun _ =>
      .error (.classNotFound "org/apache/tika/parser/pdf/PDFParserConfig")
    newObjectResult := fun _ => .ok (.handle 7)
    setter := fun _ _ => .ok () }

/-- Witness for claim C8 at concrete failing environments. -/
theorem bridge_errors_distinct_witness :
    ((JStringResult.new brokenEnvelope).run [] =
        .err (.JniError (.methodNotFound "isError"))
          [.callMethod "isError" "()Z" []] ∧
      (Error.JniError (.methodNotFound "isError")).isContentError = false) ∧
    ((JReaderResult.new brokenEnvelope).run [] =
        .err (.JniError (.methodNotFound "isError"))
          [.callMethod "isError" "()Z" []]) ∧
    ((JPDFParserConfig.new noClassEnv pdfConfigA).run [] =
        .err (.JniError (.classNotFound "org/apache/tika/parser/pdf/PDFParserConfig"))
          [.findClass "org/apache/tika/parser/pdf/PDFParserConfig"] ∧
      (Error.JniError
        (.classNotFound "org/apache/tika/parser/pdf/PDFParserConfig")).isContentError =
        false) ∧
    (∃ e2 tr, (JPDFParserConfig.new failingSetterEnv pdfConfigA).run [] =
        .err e2 tr ∧ e2.isContentError = false) :=
  bridge_errors_distinct noClassEnv failingSetterEnv brokenEnvelope pdfConfigA
    (.methodNotFound "isError")
    (.classNotFound "org/apache/tika/parser/pdf/PDFParserConfig")
    rfl rfl (by decide)
